import Mathlib

/-!
Verification of the OpenSky turbulence ingestion pipeline.

This file gives a shallow embedding of the two core processes of the
repository, the producer (producer.py) and the consumer (consumer.py),
and proves properties of the embedded definitions.

Modelling conventions:
* Python values that flow through the pipeline (JSON scalars, JSON null,
  arrays) are modelled by the inductive type `PyVal`; the Python value
  `None` (both the JSON null and the default of `dict.get`) is `PyVal.pnone`.
* A decoded JSON object is an association list `Obj`; `pyGet` models
  `dict.get(key)` with its default of `None`.
* External effects are modelled by their outcomes: an inbound Kafka
  message carries the outcome of `json.loads` on its payload, a DuckDB
  bulk write is given its success outcome as a boolean, and the HTTP
  response of the auth endpoint is a value of `AuthResp`.
* Real time (`time.time()`) and the token ttl arithmetic are modelled
  over ℚ; the literal `0.8` of the source is the exact rational 4/5.
* `raise SystemExit` / an uncaught exception are modelled as `Except.error`
  respectively as an abort flag of the loop runner.
-/

namespace OpenSky

/-- Universe of Python/JSON values carried by the pipeline. `pnone` is the
Python value None (used both for JSON null and for a missing key). -/
inductive PyVal where
| pnone : PyVal
| pbool (b : Bool) : PyVal
| pnum (q : ℚ) : PyVal
| pstr (s : String) : PyVal
| parr (l : List PyVal) : PyVal

/-- Decidable equality for `PyVal`, by structural recursion (the automatic
derivation does not handle the nested `List PyVal` argument). -/
def PyVal.decEq : (a b : PyVal) → Decidable (a = b)
| .pnone, .pnone => .isTrue rfl
| .pnone, .pbool _ => .isFalse nofun
| .pnone, .pnum _ => .isFalse nofun
| .pnone, .pstr _ => .isFalse nofun
| .pnone, .parr _ => .isFalse nofun
| .pbool _, .pnone => .isFalse nofun
| .pbool a, .pbool b => if h : a = b then .isTrue (by rw [h]) else .isFalse (by simp [h])
| .pbool _, .pnum _ => .isFalse nofun
| .pbool _, .pstr _ => .isFalse nofun
| .pbool _, .parr _ => .isFalse nofun
| .pnum _, .pnone => .isFalse nofun
| .pnum _, .pbool _ => .isFalse nofun
| .pnum a, .pnum b => if h : a = b then .isTrue (by rw [h]) else .isFalse (by simp [h])
| .pnum _, .pstr _ => .isFalse nofun
| .pnum _, .parr _ => .isFalse nofun
| .pstr _, .pnone => .isFalse nofun
| .pstr _, .pbool _ => .isFalse nofun
| .pstr _, .pnum _ => .isFalse nofun
| .pstr a, .pstr b => if h : a = b then .isTrue (by rw [h]) else .isFalse (by simp [h])
| .pstr _, .parr _ => .isFalse nofun
| .parr _, .pnone => .isFalse nofun
| .parr _, .pbool _ => .isFalse nofun
| .parr _, .pnum _ => .isFalse nofun
| .parr _, .pstr _ => .isFalse nofun
| .parr [], .parr [] => .isTrue rfl
| .parr [], .parr (_ :: _) => .isFalse (by simp)
| .parr (_ :: _), .parr [] => .isFalse (by simp)
| .parr (a :: as), .parr (b :: bs) =>
  match PyVal.decEq a b, PyVal.decEq (.parr as) (.parr bs) with
  | .isTrue h1, .isTrue h2 => .isTrue (by injection h2 with h2; rw [h1, h2])
  | .isFalse h1, _ => .isFalse (by intro h; injection h with h; injection h with hh ht; exact h1 hh)
  | _, .isFalse h2 => .isFalse (by intro h; injection h with h; injection h with hh ht; exact h2 (by rw [ht]))

instance : DecidableEq PyVal := PyVal.decEq

/-- A decoded JSON object (a Python dict produced by `json.loads`),
modelled as an association list from field names to values. -/
abbrev Obj := List (String × PyVal)

/-- Model of the Python expression `obj.get(k)`: the value stored under
key `k`, or None when the key is absent. -/
def pyGet (obj : Obj) (k : String) : PyVal :=
  match obj.find? (fun p => p.1 == k) with
  | some p => p.2
  | Option.none => PyVal.pnone

/-- Field names of a state vector, in order (producer.py lines 37 to 42 and
consumer.py lines 19 to 24; the two lists in the source are identical). -/
def state_vector_keys : List String :=
  ["icao24", "callsign", "origin_country", "time_position", "last_contact",
   "longitude", "latitude", "baro_altitude", "on_ground", "velocity",
   "true_track", "vertical_rate", "sensors", "geo_altitude", "squawk",
   "spi", "position_source"]

/-! ## Producer: transform and publish (producer.py, main, lines 151 to 168) -/

/-- Model of `dict(zip(state_vector_keys, state_vector))`: the raw
positional array is paired with the field names; `zip` truncates at the
shorter list. -/
def producerKeyedRecord (sv : List PyVal) : Obj :=
  state_vector_keys.zip sv

/-- Model of the Python `str()` conversion used by the f-string
`f"ICAO_..."` on producer.py line 161. Only the `pnone` and `pstr` cases
are reached by aircraft identifiers. -/
def pyStr : PyVal → String
| .pnone => "None"
| .pbool b => if b then "True" else "False"
| .pnum q => toString q
| .pstr s => s
| .parr _ => "[list]"

/-- A message published to the event log: the encoded key and the decoded
form of the JSON payload (serialization itself is external). -/
structure KafkaMsg where
  key : String
  value : Obj

/-- Model of the body of the per-vector loop (producer.py lines 151 to 168):
builds the keyed record, reads `keyed_state_vector["icao24"]` (a KeyError
on an empty vector is an uncaught exception, modelled as `Option.none`),
and publishes the message. There is no identifier validation in the source. -/
def produceOne (sv : List PyVal) : Option KafkaMsg :=
  let keyed := producerKeyedRecord sv
  match keyed.find? (fun p => p.1 == "icao24") with
  | Option.none => Option.none
  | some p => some { key := "ICAO_" ++ pyStr p.2, value := keyed }

/-- Model of one producer tick over the `states` array: each vector is
published in order; a KeyError aborts the loop (second component true). -/
def producerTick : List (List PyVal) → List KafkaMsg × Bool
| [] => ([], false)
| sv :: rest =>
  match produceOne sv with
  | Option.none => ([], true)
  | some m =>
    let r := producerTick rest
    (m :: r.1, r.2)

/-! ## Token manager (producer.py, get_token lines 51 to 79 and
get_events lines 84 to 87) -/

/-- The global `token_info` dict of producer.py lines 31 to 34. -/
structure TokenInfo where
  access_token : PyVal
  expires_at : ℚ

/-- Initial token state: no token held, expiry 0 (producer.py lines 31 to 34). -/
def initTokenInfo : TokenInfo := { access_token := PyVal.pnone, expires_at := 0 }

/-- Outcome of the HTTP POST to the auth endpoint: a raised network error,
or a response with a status code and the outcome of `response.json()`
(`Option.none` when the body is not valid JSON). -/
inductive AuthResp where
| netError : AuthResp
| resp (status : Nat) (body : Option Obj) : AuthResp

/-- Model of `token_data.get("expires_in", 1800) * 0.8` on producer.py
line 74: default 1800 when the key is absent; a numeric value is used as
is; a Python bool is coerced to 0 or 1 by the arithmetic; any other value
raises a TypeError in the multiplication, modelled as `Option.none`. -/
def getExpiresIn (body : Obj) : Option ℚ :=
  match body.find? (fun p => p.1 == "expires_in") with
  | Option.none => some 1800
  | some (_, PyVal.pnum q) => some q
  | some (_, PyVal.pbool b) => some (if b then 1 else 0)
  | some _ => Option.none

/-- Model of get_token (producer.py lines 51 to 79) at current time `now`.
Any exception inside the try block (a network error from `requests.post`,
a JSON decode error from `response.json()`, a TypeError in the ttl
arithmetic) is caught and turned into `raise SystemExit(1)`, modelled as
`Except.error ()`. Note that the source never checks the HTTP status
code: the status argument of the response is ignored. On success the new
token value is `token_data.get("access_token")` and the recorded expiry
is `now + ttl * 0.8`. -/
def getToken (now : ℚ) (r : AuthResp) : Except Unit TokenInfo :=
  match r with
  | .netError => .error ()
  | .resp _ Option.none => .error ()
  | .resp _ (some body) =>
    match getExpiresIn body with
    | Option.none => .error ()
    | some q => .ok { access_token := pyGet body ("access_token"), expires_at := now + q * (4 / 5) }

/-- Model of the refresh condition of get_events (producer.py line 86):
`token_info["access_token"] is None or time.time() > token_info["expires_at"]`.
get_token is invoked exactly when this returns true. -/
def needsNewToken (ti : TokenInfo) (now : ℚ) : Bool :=
  match ti.access_token with
  | PyVal.pnone => true
  | _ => decide (ti.expires_at < now)

/-! ## Consumer: analytical store (consumer.py, lines 52 to 81) -/

/-- A row of the `airspace` table: the 17-tuple built on consumer.py
lines 95 and 96, in the order of `state_vector_keys`. -/
abbrev Row := List PyVal

/-- The primary key of a row: the pair of its `icao24` and `last_contact`
components (columns 0 and 4 of the insert order; consumer.py line 72). -/
def rowKey (r : Row) : PyVal × PyVal :=
  (r.getD 0 PyVal.pnone, r.getD 4 PyVal.pnone)

/-- The `airspace` table, as a map from primary key to row: the primary
key constraint makes the row set a function of the key. -/
abbrev Store := PyVal × PyVal → Option Row

/-- The empty table (freshly created by CREATE TABLE). -/
def emptyStore : Store := fun _ => Option.none

/-- One INSERT OR REPLACE of a single row (consumer.py line 81): the row
replaces whatever row shares its primary key. -/
def upsert (S : Store) (r : Row) : Store :=
  fun k => if rowKey r = k then some r else S k

/-- Model of `con.executemany(insert_query, batch)`: the rows of the batch
are upserted in order (consumer.py lines 79 to 81 and 101). -/
def writeBatch (S : Store) (B : List Row) : Store :=
  B.foldl upsert S

/-- The last row of the batch carrying a given primary key, if any
(helper for reasoning about `writeBatch`). -/
def lastWith : List Row → PyVal × PyVal → Option Row
| [], _ => Option.none
| r :: B, k => Option.or (lastWith B k) (if rowKey r = k then some r else Option.none)

/-! ## Consumer: batch/commit loop (consumer.py, main, lines 83 to 129) -/

/-- Model of `[data.get(key) for key in state_vector_keys]` (consumer.py
line 95): exactly one component per field name, None when absent. -/
def rowOf (obj : Obj) : Row :=
  state_vector_keys.map (fun k => pyGet obj k)

/-- One inbound poll result: no message (timeout), a message carrying a
delivery error, or a message whose payload has the given `json.loads`
outcome (`Option.none` when the payload is not valid JSON). -/
inductive Msg where
| noMsg : Msg
| errored : Msg
| val (parse : Option Obj) : Msg

/-- Observable events of the consumer, in program order. `wrote` is the
bulk write `con.executemany` of a batch; `storeCommitted` is the DuckDB
transaction commit `con.commit()` on the store connection (consumer.py
lines 102 and 119) — it is a commit of the analytical store, not of log
offsets; `offsetCommitted` is a Kafka log-offset commit (an invocation of
`consumer.commit()` or `consumer.store_offsets()`) — the source contains
no such call anywhere, so this event exists in the model only so that its
absence from every trace can be stated; `closedStore` and
`closedConsumer` are `con.close()` and `consumer.close()`. -/
inductive Ev where
| wrote (batch : List Row) : Ev
| storeCommitted : Ev
| offsetCommitted : Ev
| closedStore : Ev
| closedConsumer : Ev

/-- Consumer state: the batch buffer `events_to_insert`, the analytical
store, and the `messages_processed` counter. -/
structure CState where
  buffer : List Row
  store : Store
  processed : Nat

/-- Initial consumer state (consumer.py lines 83 and 84, empty table). -/
def initState : CState := { buffer := [], store := emptyStore, processed := 0 }

/-- One iteration of the consume loop (consumer.py lines 86 to 112) on a
poll result `m`, where `writeOk` is the outcome of the bulk write in case
one is attempted. Returns `Option.none` when the iteration raises an
exception that escapes the loop: the `json.loads` on line 91 runs outside
the inner try block, so a payload that fails to parse aborts the loop.
Inside the inner try block (lines 93 to 109) the row is appended and, once
the buffer holds at least 2000 rows, the batch is written, the DuckDB
transaction is committed and the buffer cleared; a write failure is caught
by the inner except clause, which only logs: the buffer keeps all rows,
nothing is committed, and the loop continues. The iteration never emits
`Ev.offsetCommitted`: the loop body contains no log-offset commit call. -/
def consumeStep (s : CState) (m : Msg) (writeOk : Bool) : Option (CState × List Ev) :=
  match m with
  | .noMsg => some (s, [])
  | .errored => some (s, [])
  | .val Option.none => Option.none
  | .val (some obj) =>
    let buf := s.buffer ++ [rowOf obj]
    if 2000 ≤ buf.length then
      if writeOk then
        some ({ buffer := [], store := writeBatch s.store buf,
                processed := s.processed + buf.length },
              [Ev.wrote buf, Ev.storeCommitted])
      else
        some ({ s with buffer := buf }, [])
    else
      some ({ s with buffer := buf }, [])

/-- Runs the consume loop over a list of iteration inputs. The boolean of
the result is true when an uncaught exception aborted the loop before the
inputs were exhausted (an exhausted input list models a graceful stop). -/
def runLoop : CState → List (Msg × Bool) → CState × List Ev × Bool
| s, [] => (s, [], false)
| s, (m, w) :: rest =>
  match consumeStep s m w with
  | Option.none => (s, [], true)
  | some (s', evs) =>
    let r := runLoop s' rest
    (r.1, evs ++ r.2.1, r.2.2)

/-- Model of the finally block (consumer.py lines 115 to 129): when the
buffer is non-empty, one final bulk write and one DuckDB transaction
commit are attempted (a failure is only logged); then the store connection
and the consumer are closed, in that order. The shutdown path contains no
log-offset commit call either, so `Ev.offsetCommitted` is never emitted. -/
def finalize (s : CState) (writeOk : Bool) : CState × List Ev :=
  if 0 < s.buffer.length then
    if writeOk then
      ({ buffer := s.buffer, store := writeBatch s.store s.buffer,
         processed := s.processed + s.buffer.length },
       [Ev.wrote s.buffer, Ev.storeCommitted, Ev.closedStore, Ev.closedConsumer])
    else (s, [Ev.closedStore, Ev.closedConsumer])
  else (s, [Ev.closedStore, Ev.closedConsumer])

/-- A full run of the consumer: the loop over the given inputs followed by
the finally block, with the concatenated event trace. -/
def runMain (inputs : List (Msg × Bool)) (finalWriteOk : Bool) : CState × List Ev :=
  let r := runLoop initState inputs
  let f := finalize r.1 finalWriteOk
  (f.1, r.2.1 ++ f.2)

/-- Iteration inputs for a list of well-formed messages, all bulk writes
succeeding. -/
def validIn (objs : List Obj) : List (Msg × Bool) :=
  objs.map (fun o => (Msg.val (some o), true))

/-- A sample decoded message, used to instantiate theorems at concrete
inputs. -/
def sampleObj : Obj :=
  [("icao24", PyVal.pstr ("a1b2c3")), ("last_contact", PyVal.pnum 1700000000)]

/-! ## Theorems -/

/-- Evaluation of `writeBatch` at a key: the last row of the batch with
that key wins, and otherwise the store is unchanged. -/
theorem writeBatch_apply (B : List Row) (S : Store) (k : PyVal × PyVal) :
    writeBatch S B k = Option.or (lastWith B k) (S k) := by
  induction B generalizing S with
  | nil => simp [writeBatch, lastWith, Option.or]
  | cons r B ih =>
    have h1 : writeBatch S (r :: B) = writeBatch (upsert S r) B := rfl
    rw [h1, ih]
    simp only [lastWith]
    cases hl : lastWith B k with
    | none =>
      by_cases h : rowKey r = k <;> simp [Option.or, upsert, h]
    | some v => simp [Option.or]

/-- C4: applying the same batch to the store twice yields the same row set
as applying it once, and an upsert of a row makes that row the unique row
stored under its primary key. -/
theorem c4_store_write_idempotent (S : Store) (B : List Row) :
    writeBatch (writeBatch S B) B = writeBatch S B ∧
    ∀ r : Row, writeBatch S [r] (rowKey r) = some r := by
  constructor
  · funext k
    rw [writeBatch_apply, writeBatch_apply]
    cases lastWith B k <;> simp [Option.or]
  · intro r
    simp [writeBatch, upsert]

/-- Zipping a key list with a value list and projecting the keys yields
the key-list prefix of the value-list length. -/
theorem zip_map_fst (l1 : List String) (l2 : List PyVal) :
    (l1.zip l2).map Prod.fst = l1.take l2.length := by
  induction l1 generalizing l2 with
  | nil => simp
  | cons a l1 ih =>
    cases l2 with
    | nil => simp
    | cons b l2 => simp [ih]

/-- C10: the producer pairs a raw vector with the 17 field names in
order, truncating at the shorter side (extra trailing elements such as the
category field are discarded, and a short vector yields a record missing
the trailing names); the consumer row always has exactly 17 components,
the component at position i being the value of the i-th field name, with
None substituted for an absent field. -/
theorem c10_record_shape (sv : List PyVal) (obj : Obj) (i : Nat) :
    (producerKeyedRecord sv).map Prod.fst = state_vector_keys.take sv.length ∧
    (producerKeyedRecord sv).length = min 17 sv.length ∧
    (rowOf obj).length = 17 ∧
    (rowOf obj).get? i = (state_vector_keys.get? i).map (fun k => pyGet obj k) := by
  refine ⟨zip_map_fst _ _, ?_, ?_, ?_⟩
  · simp [producerKeyedRecord, state_vector_keys]
  · simp [rowOf, state_vector_keys]
  · simp [rowOf]

/-- C8: acquiring a token with ttl 100 at time t0 records expiry t0 + 80
(eighty percent of the ttl); the manager requests a new token on a call
strictly after t0 + 80 and does not on a call at or before t0 + 79; in
general a new token is requested exactly when no token is held or the
current time has passed the recorded expiry. -/
theorem c8_token_refresh (t0 now : ℚ) (s : String) :
    getToken t0 (AuthResp.resp 200 (some [("access_token", PyVal.pstr s), ("expires_in", PyVal.pnum 100)]))
      = Except.ok { access_token := PyVal.pstr s, expires_at := t0 + 80 } ∧
    (t0 + 80 < now → needsNewToken { access_token := PyVal.pstr s, expires_at := t0 + 80 } now = true) ∧
    (now ≤ t0 + 79 → needsNewToken { access_token := PyVal.pstr s, expires_at := t0 + 80 } now = false) ∧
    (∀ ti : TokenInfo, needsNewToken ti now = true ↔ (ti.access_token = PyVal.pnone ∨ ti.expires_at < now)) := by
  refine ⟨?_, ?_, ?_, ?_⟩
  · simp [getToken, getExpiresIn, pyGet]
    norm_num
  · intro h
    simp [needsNewToken]
    exact h
  · intro h
    simp [needsNewToken]
    linarith
  · intro ti
    obtain ⟨tok, exp⟩ := ti
    cases tok <;> simp [needsNewToken]

/-- Instantiation of the token refresh theorem: with a token acquired at
time 0 and ttl 100, a call at time 81 requests a new token and a call at
time 79 does not. -/
theorem c8_token_refresh_witness :
    ((0 : ℚ) + 80 < 81 ∧
      needsNewToken { access_token := PyVal.pstr ("tok"), expires_at := (0 : ℚ) + 80 } 81 = true) ∧
    ((79 : ℚ) ≤ 0 + 79 ∧
      needsNewToken { access_token := PyVal.pstr ("tok"), expires_at := (0 : ℚ) + 80 } 79 = false) :=
  ⟨⟨by norm_num, (c8_token_refresh 0 81 ("tok")).2.1 (by norm_num)⟩,
   ⟨by norm_num, (c8_token_refresh 0 79 ("tok")).2.2.1 (by norm_num)⟩⟩

/-- C9 counter-evaluation: a non-2xx auth response whose body is valid
JSON is not fatal. get_token returns normally (no SystemExit), storing
access_token None with a fresh expiry of 1440 seconds, and the polling
loop continues with an absent credential. -/
theorem c9_auth_http_error_not_fatal :
    getToken 0 (AuthResp.resp 401 (some [("error", PyVal.pstr ("invalid_client"))]))
      = Except.ok { access_token := PyVal.pnone, expires_at := 1440 } := by
  simp [getToken, getExpiresIn, pyGet]
  norm_num

/-- C2 counter-evaluation: a raw state vector whose aircraft identifier
is null is not rejected: the producer publishes a message for it, keyed
ICAO_None, and the tick completes without error. -/
theorem c2_null_identifier_published :
    producerTick [[PyVal.pnone, PyVal.pstr ("DAL123")]]
      = ([{ key := "ICAO_None",
            value := [("icao24", PyVal.pnone), ("callsign", PyVal.pstr ("DAL123"))] }], false) := by
  rfl

/-- C3 counter-evaluation: an inbound message whose payload fails to
parse as JSON aborts the consume loop (the third component of the run
result is the abort flag): the parse on consumer.py line 91 runs outside
the inner try block, so the exception escapes to the finally block. The
buffer is indeed left unmodified. -/
theorem c3_malformed_message_aborts_loop :
    runLoop initState [(Msg.val Option.none, true)] = (initState, [], true) := by
  rfl

/-- C6: when the bulk write of a full batch fails, the iteration neither
aborts nor clears the buffer: the only change of state is the append of
the current row, the store and the processed counter are untouched and no
event (in particular no commit) is emitted; the following flush attempt
writes a batch that still contains every one of those rows. -/
theorem c6_write_failure_preserves_state (s : CState) (o o2 : Obj)
    (h : 1999 ≤ s.buffer.length) :
    consumeStep s (Msg.val (some o)) false
      = some ({ s with buffer := s.buffer ++ [rowOf o] }, []) ∧
    consumeStep { s with buffer := s.buffer ++ [rowOf o] } (Msg.val (some o2)) true
      = some ({ buffer := [],
                store := writeBatch s.store (s.buffer ++ [rowOf o, rowOf o2]),
                processed := s.processed + (s.buffer.length + 2) },
              [Ev.wrote (s.buffer ++ [rowOf o, rowOf o2]), Ev.storeCommitted]) := by
  have h1 : 2000 ≤ (s.buffer ++ [rowOf o]).length := by
    simp
    omega
  have h2 : 2000 ≤ ((s.buffer ++ [rowOf o]) ++ [rowOf o2]).length := by
    simp
    omega
  refine ⟨by simp [consumeStep, h1], ?_⟩
  simp [consumeStep, h2]
  omega

/-- Instantiation of the write failure theorem: with 1999 buffered rows,
the incoming row triggers a flush whose write fails; the resulting state
keeps all 2000 rows, the store and counter are unchanged, and no event is
emitted. -/
theorem c6_write_failure_preserves_state_witness :
    1999 ≤ (List.replicate 1999 (rowOf sampleObj) : List Row).length ∧
    consumeStep { buffer := List.replicate 1999 (rowOf sampleObj), store := emptyStore, processed := 0 }
        (Msg.val (some sampleObj)) false
      = some ({ buffer := List.replicate 1999 (rowOf sampleObj) ++ [rowOf sampleObj],
                store := emptyStore, processed := 0 }, []) :=
  ⟨by rw [List.length_replicate],
   (c6_write_failure_preserves_state
      { buffer := List.replicate 1999 (rowOf sampleObj), store := emptyStore, processed := 0 }
      sampleObj sampleObj (by rw [List.length_replicate])).1⟩

/-- The finally block never emits an offset-commit event: the shutdown
path of the source contains no log-offset commit call. -/
theorem finalize_no_offset (s : CState) (w : Bool) :
    Ev.offsetCommitted ∉ (finalize s w).2 := by
  unfold finalize
  split
  · split <;> simp
  · simp

/-- C7 counter-evaluation: on shutdown with one buffered row, the finally
block performs the final bulk write of exactly that row and the DuckDB
transaction commit, then closes the store connection and the consumer
(and performs no final write when the buffer is empty) — but it performs
no log-offset commit: no trace of the finally block ever contains an
offset-commit event, so the final write is not followed by the offset
commit that the claim requires. -/
theorem c7_shutdown_no_offset_commit :
    finalize { buffer := [rowOf sampleObj], store := emptyStore, processed := 0 } true
      = ({ buffer := [rowOf sampleObj], store := writeBatch emptyStore [rowOf sampleObj],
           processed := 1 },
         [Ev.wrote [rowOf sampleObj], Ev.storeCommitted, Ev.closedStore, Ev.closedConsumer]) ∧
    finalize initState true = (initState, [Ev.closedStore, Ev.closedConsumer]) ∧
    ∀ (s : CState) (w : Bool), Ev.offsetCommitted ∉ (finalize s w).2 := by
  refine ⟨by simp [finalize], by simp [finalize, initState], ?_⟩
  intro s w
  exact finalize_no_offset s w

/-- Classification of the events one loop iteration can emit: none, or a
bulk write immediately followed by its store commit. -/
theorem step_evs (s : CState) (m : Msg) (w : Bool) (s2 : CState) (evs : List Ev)
    (h : consumeStep s m w = some (s2, evs)) :
    evs = [] ∨ ∃ b, evs = [Ev.wrote b, Ev.storeCommitted] := by
  cases m with
  | noMsg =>
    simp [consumeStep] at h
    exact Or.inl h.2
  | errored =>
    simp [consumeStep] at h
    exact Or.inl h.2
  | val p =>
    cases p with
    | none => simp [consumeStep] at h
    | some obj =>
      simp only [consumeStep] at h
      split at h
      · split at h
        · simp only [Option.some.injEq, Prod.mk.injEq] at h
          exact Or.inr ⟨s.buffer ++ [rowOf obj], h.2.symm⟩
        · simp only [Option.some.injEq, Prod.mk.injEq] at h
          exact Or.inl h.2.symm
      · simp only [Option.some.injEq, Prod.mk.injEq] at h
        exact Or.inl h.2.symm

/-- The consume loop never emits an offset-commit event: no iteration of
the loop body contains a log-offset commit call. -/
theorem runLoop_no_offset (inputs : List (Msg × Bool)) :
    ∀ s : CState, Ev.offsetCommitted ∉ (runLoop s inputs).2.1 := by
  induction inputs with
  | nil =>
    intro s
    simp [runLoop]
  | cons iw rest ih =>
    intro s
    obtain ⟨m, w⟩ := iw
    cases hstep : consumeStep s m w with
    | none => simp [runLoop, hstep]
    | some pr =>
      obtain ⟨s2, evs⟩ := pr
      have hevs := step_evs s m w s2 evs hstep
      simp only [runLoop, hstep]
      intro hmem
      rcases List.mem_append.mp hmem with h1 | h1
      · rcases hevs with rfl | ⟨b, rfl⟩
        · simp at h1
        · simp at h1
      · exact ih s2 h1

/-- C1 counter-evaluation: the consume loop performs no log-offset commit
at all. In every execution (any poll results, any write outcomes, any
final write outcome) the event trace contains no offset-commit event: the
only commits the source performs are DuckDB transaction commits on the
store connection. A concrete run that buffers one message and then shuts
down exhibits the full trace — bulk write, store commit, close store,
close consumer — with no offset commit covering the buffered message. -/
theorem c1_no_offset_commit :
    (∀ (inputs : List (Msg × Bool)) (fw : Bool), Ev.offsetCommitted ∉ (runMain inputs fw).2) ∧
    runMain [(Msg.val (some sampleObj), true)] true
      = ({ buffer := [rowOf sampleObj], store := writeBatch emptyStore [rowOf sampleObj],
           processed := 1 },
         [Ev.wrote [rowOf sampleObj], Ev.storeCommitted, Ev.closedStore, Ev.closedConsumer]) := by
  constructor
  · intro inputs fw hmem
    have h : (runMain inputs fw).2
        = (runLoop initState inputs).2.1 ++ (finalize (runLoop initState inputs).1 fw).2 := rfl
    rw [h] at hmem
    rcases List.mem_append.mp hmem with h1 | h1
    · exact runLoop_no_offset inputs initState h1
    · exact finalize_no_offset _ _ h1
  · rfl

/-- Below the flush threshold the loop only accumulates: the buffer grows
by the incoming rows in order and no event is emitted. -/
theorem runLoop_below_threshold (objs : List Obj) :
    ∀ s : CState, s.buffer.length + objs.length ≤ 1999 →
      runLoop s (validIn objs) = ({ s with buffer := s.buffer ++ objs.map rowOf }, [], false) := by
  induction objs with
  | nil =>
    intro s h
    simp [validIn, runLoop]
  | cons o rest ih =>
    intro s h
    have h0 : s.buffer.length + (rest.length + 1) ≤ 1999 := by
      simpa using h
    have hlen : ¬ 2000 ≤ (s.buffer ++ [rowOf o]).length := by
      simp only [List.length_append, List.length_cons, List.length_nil]
      omega
    have hstep : consumeStep s (Msg.val (some o)) true
        = some ({ s with buffer := s.buffer ++ [rowOf o] }, []) := by
      simp [consumeStep, hlen]
      omega
    have hih : ({ s with buffer := s.buffer ++ [rowOf o] } : CState).buffer.length + rest.length ≤ 1999 := by
      show (s.buffer ++ [rowOf o]).length + rest.length ≤ 1999
      simp only [List.length_append, List.length_cons, List.length_nil]
      omega
    simp only [validIn, List.map_cons, runLoop, hstep]
    rw [show (List.map (fun o => (Msg.val (some o), true)) rest) = validIn rest from rfl]
    rw [ih { s with buffer := s.buffer ++ [rowOf o] } hih]
    simp

/-- Exactly at the flush threshold the loop performs one bulk write of
the whole buffer, commits, and clears the buffer. -/
theorem runLoop_reach_threshold (objs : List Obj) :
    ∀ s : CState, objs ≠ [] → s.buffer.length + objs.length = 2000 →
      runLoop s (validIn objs)
        = ({ buffer := [], store := writeBatch s.store (s.buffer ++ objs.map rowOf),
             processed := s.processed + 2000 },
           [Ev.wrote (s.buffer ++ objs.map rowOf), Ev.storeCommitted], false) := by
  induction objs with
  | nil =>
    intro s hne h
    exact absurd rfl hne
  | cons o rest ih =>
    intro s hne h
    have h0 : s.buffer.length + (rest.length + 1) = 2000 := by
      simpa using h
    by_cases hrest : rest = []
    · subst hrest
      have h1 : s.buffer.length + 1 = 2000 := by
        simpa using h0
      have hlen : 2000 ≤ (s.buffer ++ [rowOf o]).length := by
        simp only [List.length_append, List.length_cons, List.length_nil]
        omega
      have hstep : consumeStep s (Msg.val (some o)) true
          = some ({ buffer := [], store := writeBatch s.store (s.buffer ++ [rowOf o]),
                    processed := s.processed + (s.buffer ++ [rowOf o]).length },
                  [Ev.wrote (s.buffer ++ [rowOf o]), Ev.storeCommitted]) := by
        simp [consumeStep, hlen]
        omega
      simp only [validIn, List.map_cons, List.map_nil, runLoop, hstep]
      simp only [List.length_append, List.length_cons, List.length_nil]
      simp
      omega
    · have hpos : 0 < rest.length := List.length_pos.mpr hrest
      have hlt : ¬ 2000 ≤ (s.buffer ++ [rowOf o]).length := by
        simp only [List.length_append, List.length_cons, List.length_nil]
        omega
      have hstep : consumeStep s (Msg.val (some o)) true
          = some ({ s with buffer := s.buffer ++ [rowOf o] }, []) := by
        simp [consumeStep, hlt]
        omega
      have hih : ({ s with buffer := s.buffer ++ [rowOf o] } : CState).buffer.length + rest.length = 2000 := by
        show (s.buffer ++ [rowOf o]).length + rest.length = 2000
        simp only [List.length_append, List.length_cons, List.length_nil]
        omega
      simp only [validIn, List.map_cons, runLoop, hstep]
      rw [show (List.map (fun o => (Msg.val (some o), true)) rest) = validIn rest from rfl]
      rw [ih { s with buffer := s.buffer ++ [rowOf o] } hrest hih]
      simp

/-- C5: starting from the empty buffer and feeding well-formed messages
with all writes succeeding, after at most 1999 records no write has
occurred and every record is still in the buffer; after exactly 2000
records exactly one bulk write of those 2000 rows (and its commit) has
occurred and the buffer is empty immediately afterwards. -/
theorem c5_threshold_flush (objs : List Obj) :
    (objs.length ≤ 1999 →
      runLoop initState (validIn objs)
        = ({ buffer := objs.map rowOf, store := emptyStore, processed := 0 }, [], false)) ∧
    (objs.length = 2000 →
      runLoop initState (validIn objs)
        = ({ buffer := [], store := writeBatch emptyStore (objs.map rowOf), processed := 2000 },
           [Ev.wrote (objs.map rowOf), Ev.storeCommitted], false)) := by
  constructor
  · intro h
    have h0 : initState.buffer.length + objs.length ≤ 1999 := by
      simpa [initState] using h
    simpa [initState] using runLoop_below_threshold objs initState h0
  · intro h
    have hne : objs ≠ [] := by
      intro he
      rw [he] at h
      simp at h
    have h0 : initState.buffer.length + objs.length = 2000 := by
      simpa [initState] using h
    simpa [initState] using runLoop_reach_threshold objs initState hne h0

/-- Instantiation of the threshold theorem at a concrete list of 2000
well-formed messages: one write of the 2000 rows is triggered and the
buffer is empty immediately afterwards. -/
theorem c5_threshold_flush_witness :
    (List.replicate 2000 sampleObj).length = 2000 ∧
    runLoop initState (validIn (List.replicate 2000 sampleObj))
      = ({ buffer := [], store := writeBatch emptyStore ((List.replicate 2000 sampleObj).map rowOf),
           processed := 2000 },
         [Ev.wrote ((List.replicate 2000 sampleObj).map rowOf), Ev.storeCommitted], false) :=
  ⟨by rw [List.length_replicate], (c5_threshold_flush (List.replicate 2000 sampleObj)).2 (by rw [List.length_replicate])⟩

end OpenSky
